import Mathlib

/-!
Shallow embedding of the TeeStream writer multiplexer (TeeStream.h /
TeeStream.cpp).  The core is `TeeStreamBuf`: a destination registry
(`streams`), a per-thread buffer configuration (`buffer_size`,
`flush_threshold`), and the operations `xsputn` (write), the implicit or
explicit `flush_thread_buffer`, `sync`, `add_stream` and `remove_stream`.

The C++ thread-local buffer (`static thread_local std::unique_ptr<ThreadBuffer>
TeeStreamBuf::local_buffer`) is a class-level static: one buffer per thread,
shared by every `TeeStreamBuf` instance that thread touches.  The embedding
therefore passes the thread's buffer (`Option ThreadBuffer`) separately from
the instance state, so that several instances sharing one thread buffer can be
modelled faithfully.  The model is single-threaded: one thread's buffer is
threaded through the operations explicitly.
-/

/-- A destination `std::ostream`.  `id` models the stream's identity (its
address, used by `remove_stream`); `writeOk` models whether `stream.write`
succeeds (a stream with failbit set accepts nothing and reports failure, as the
`FailingStream` test does); `syncOk` models the result of
`stream.rdbuf()->pubsync()`; `content` is the accumulated bytes. -/
structure Ostream where
  id : Nat
  writeOk : Bool
  syncOk : Bool
  content : List Char
deriving DecidableEq

/-- `stream.write(s, n)`: a healthy stream appends the bytes and reports
success; a failing stream appends nothing and reports failure. -/
def Ostream.write (d : Ostream) (s : List Char) : Ostream :=
  if d.writeOk then { d with content := d.content ++ s } else d

/-- `TeeStreamBuf::ThreadBuffer`: a byte store of capacity `size` whose filled
prefix is `data` (so `used = data.length`). -/
structure ThreadBuffer where
  size : Nat
  data : List Char
deriving DecidableEq

/-- The `used` field of a `ThreadBuffer` (length of the filled prefix). -/
def ThreadBuffer.used (tb : ThreadBuffer) : Nat := tb.data.length

/-- `TeeStreamBuf` instance state: the registered destination streams and the
immutable buffer configuration.  The thread-local buffer is *not* a field: in
the source it is a class-level `static thread_local`, shared across instances,
so it is passed separately. -/
structure TeeStreamBuf where
  streams : List Ostream
  buffer_size : Nat
  flush_threshold : Nat
deriving DecidableEq

/-- `TeeStreamBuf::TeeStreamBuf(buffer_size, flush_threshold)`: if
`flush_threshold >= buffer_size` the threshold is silently reset to
`buffer_size * 3 / 4` (75% of capacity, integer division). -/
def TeeStreamBuf.init (buffer_size flush_threshold : Nat) : TeeStreamBuf :=
  { streams := []
    buffer_size := buffer_size
    flush_threshold :=
      if flush_threshold ≥ buffer_size then buffer_size * 3 / 4 else flush_threshold }

/-- `TeeStreamBuf::get_thread_buffer()`: create this thread's buffer (sized by
this instance's `buffer_size`) if it does not exist yet, else return it. -/
def get_thread_buffer (t : TeeStreamBuf) (lb : Option ThreadBuffer) : ThreadBuffer :=
  match lb with
  | none => { size := t.buffer_size, data := [] }
  | some tb => tb

/-- `TeeStreamBuf::flush_thread_buffer()`: no-op when the thread buffer is
empty; otherwise copy the filled prefix, reset `used` to 0, and write the copy
to every registered stream.  The individual write results are discarded and the
function returns nothing. -/
def flush_thread_buffer (t : TeeStreamBuf) (lb : Option ThreadBuffer) :
    TeeStreamBuf × Option ThreadBuffer :=
  let tb := get_thread_buffer t lb
  if tb.used = 0 then
    (t, some tb)
  else
    ({ t with streams := t.streams.map (fun d => d.write tb.data) },
     some { tb with data := [] })

/-- `TeeStreamBuf::xsputn(s, n)`: returns the accepted byte count together with
the new instance and thread-buffer state.
  - `n <= 0`: returns 0, nothing changes.
  - `n >= tb->size`: bypass — write `s` directly to every stream; return `n` if
    every stream's write succeeded, else 0; the thread buffer is untouched.
  - otherwise: if `tb->used + n > tb->size` flush first; append `s` to the
    buffer; if `used >= flush_threshold` flush; return `n`. -/
def xsputn (t : TeeStreamBuf) (lb : Option ThreadBuffer) (s : List Char) :
    Nat × TeeStreamBuf × Option ThreadBuffer :=
  if s.length = 0 then
    (0, t, lb)
  else
    let tb := get_thread_buffer t lb
    if tb.size ≤ s.length then
      ((if t.streams.all (fun d => d.writeOk) then s.length else 0),
       { t with streams := t.streams.map (fun d => d.write s) },
       some tb)
    else
      let p := if tb.size < tb.used + s.length then flush_thread_buffer t (some tb)
               else (t, some tb)
      let tb2 : ThreadBuffer :=
        { size := (get_thread_buffer p.1 p.2).size
          data := (get_thread_buffer p.1 p.2).data ++ s }
      if t.flush_threshold ≤ tb2.used then
        (s.length, (flush_thread_buffer p.1 (some tb2)).1,
         (flush_thread_buffer p.1 (some tb2)).2)
      else
        (s.length, p.1, some tb2)

/-- `TeeStreamBuf::sync()`: flush the thread buffer (write results discarded),
then `pubsync` every stream; return 0 iff every destination sync succeeded,
else -1. -/
def TeeStreamBuf.sync (t : TeeStreamBuf) (lb : Option ThreadBuffer) :
    Int × TeeStreamBuf × Option ThreadBuffer :=
  let p := flush_thread_buffer t lb
  ((if p.1.streams.all (fun d => d.syncOk) then 0 else -1), p.1, p.2)

/-- `TeeStreamBuf::add_stream`: append the stream handle (duplicates allowed). -/
def add_stream (t : TeeStreamBuf) (d : Ostream) : TeeStreamBuf :=
  { t with streams := t.streams ++ [d] }

/-- `TeeStreamBuf::remove_stream`: erase every entry whose identity matches. -/
def remove_stream (t : TeeStreamBuf) (i : Nat) : TeeStreamBuf :=
  { t with streams := t.streams.filter (fun d => d.id ≠ i) }

/-- One caller-visible operation of the core (write, flush, sync, add or
remove), for stating configuration immutability and the buffer-fill
invariant. -/
inductive Op where
  | write (s : List Char)
  | flushOp
  | syncOp
  | addOp (d : Ostream)
  | removeOp (i : Nat)

/-- Apply one operation to an instance together with the thread buffer. -/
def applyOp (t : TeeStreamBuf) (lb : Option ThreadBuffer) : Op → TeeStreamBuf × Option ThreadBuffer
  | .write s => ((xsputn t lb s).2.1, (xsputn t lb s).2.2)
  | .flushOp => flush_thread_buffer t lb
  | .syncOp => ((TeeStreamBuf.sync t lb).2.1, (TeeStreamBuf.sync t lb).2.2)
  | .addOp d => (add_stream t d, lb)
  | .removeOp i => (remove_stream t i, lb)

/-- A single-thread sequence of `write` calls, threading the state through. -/
def runWrites (t : TeeStreamBuf) (lb : Option ThreadBuffer) :
    List (List Char) → TeeStreamBuf × Option ThreadBuffer
  | [] => (t, lb)
  | w :: ws => runWrites (xsputn t lb w).2.1 (xsputn t lb w).2.2 ws

/-- The buffer-fill invariant: the thread buffer's filled prefix never exceeds
its capacity. -/
def bufferInv : Option ThreadBuffer → Prop
  | none => True
  | some tb => tb.data.length ≤ tb.size

instance : DecidablePred bufferInv := by
  intro lb
  cases lb with
  | none => exact isTrue trivial
  | some tb => exact inferInstanceAs (Decidable (tb.data.length ≤ tb.size))

/-! ### Sample destinations and instances for concrete runs -/

/-- A healthy `ostringstream`-like destination. -/
def sampleD1 : Ostream := ⟨0, true, true, []⟩

/-- A second healthy destination with its own identity. -/
def sampleD2 : Ostream := ⟨2, true, true, []⟩

/-- An always-failing destination: its writes fail and accept nothing (failbit
set, as in the `FailingStream` test); its `pubsync` succeeds, which is the
default `std::streambuf::sync`. -/
def sampleFail : Ostream := ⟨1, false, true, []⟩

/-- A multiplexer with capacity 16, threshold 8 and one healthy destination
(the `VerySmallBuffer` test configuration). -/
def sampleT168 : TeeStreamBuf := add_stream (TeeStreamBuf.init 16 8) sampleD1

/-- Capacity 16, threshold 8, one always-failing destination. -/
def sampleTF : TeeStreamBuf := add_stream (TeeStreamBuf.init 16 8) sampleFail

/-- Capacity 16, threshold 8, one failing and one healthy destination
(spec scenario 4). -/
def sampleTFH : TeeStreamBuf :=
  add_stream (add_stream (TeeStreamBuf.init 16 8) sampleFail) sampleD1

/-- A second independent multiplexer instance with its own destination. -/
def sampleB : TeeStreamBuf := add_stream (TeeStreamBuf.init 16 8) sampleD2

def abL : List Char := ['A', 'B']

def cdL : List Char := ['C', 'D', 'E', 'F', 'G', 'H', 'I', 'J']

def big16 : List Char :=
  ['C', 'D', 'E', 'F', 'G', 'H', 'I', 'J', 'K', 'L', 'M', 'N', 'O', 'P', 'Q', 'R']

def helloL : List Char := ['h', 'e', 'l', 'l', 'o', '\n']

def okL : List Char := ['o', 'k']

def hiL : List Char := ['h', 'i']

/-! ### Basic lemmas about destination writes -/

@[simp] lemma Ostream.write_writeOk (d : Ostream) (s : List Char) :
    (d.write s).writeOk = d.writeOk := by
  unfold Ostream.write; split <;> rfl

@[simp] lemma Ostream.write_syncOk (d : Ostream) (s : List Char) :
    (d.write s).syncOk = d.syncOk := by
  unfold Ostream.write; split <;> rfl

@[simp] lemma Ostream.write_id (d : Ostream) (s : List Char) :
    (d.write s).id = d.id := by
  unfold Ostream.write; split <;> rfl

@[simp] lemma Ostream.write_nil (d : Ostream) : d.write [] = d := by
  unfold Ostream.write; split <;> simp

lemma Ostream.write_append (d : Ostream) (a b : List Char) :
    (d.write a).write b = d.write (a ++ b) := by
  by_cases h : d.writeOk
  · simp [Ostream.write, h]
  · simp [Ostream.write, h]

lemma Ostream.write_content_ok (d : Ostream) (s : List Char) (h : d.writeOk = true) :
    (d.write s).content = d.content ++ s := by
  simp [Ostream.write, h]

lemma Ostream.write_ok_eq (d : Ostream) (s : List Char) (h : d.writeOk = true) :
    d.write s = { d with content := d.content ++ s } := by
  simp [Ostream.write, h]

/-! ### Branch lemmas for flush and write -/

lemma flush_none (t : TeeStreamBuf) :
    flush_thread_buffer t none = (t, some ⟨t.buffer_size, []⟩) := by
  simp [flush_thread_buffer, get_thread_buffer, ThreadBuffer.used]

lemma flush_empty (t : TeeStreamBuf) (sz : Nat) :
    flush_thread_buffer t (some ⟨sz, []⟩) = (t, some ⟨sz, []⟩) := by
  simp [flush_thread_buffer, get_thread_buffer, ThreadBuffer.used]

lemma flush_nonempty (t : TeeStreamBuf) (sz : Nat) (data : List Char) (h : data ≠ []) :
    flush_thread_buffer t (some ⟨sz, data⟩) =
      ({ t with streams := t.streams.map (fun d => d.write data) }, some ⟨sz, []⟩) := by
  have hl : ¬ data.length = 0 := fun hl => h (List.length_eq_zero.mp hl)
  simp [flush_thread_buffer, get_thread_buffer, ThreadBuffer.used, hl]

lemma xsputn_nil (t : TeeStreamBuf) (lb : Option ThreadBuffer) :
    xsputn t lb [] = (0, t, lb) := by
  simp [xsputn]

lemma xsputn_none (t : TeeStreamBuf) (s : List Char) (h0 : s ≠ []) :
    xsputn t none s = xsputn t (some ⟨t.buffer_size, []⟩) s := by
  have hs : ¬ s.length = 0 := fun hl => h0 (List.length_eq_zero.mp hl)
  simp [xsputn, get_thread_buffer, hs]

lemma xsputn_bypass (t : TeeStreamBuf) (sz : Nat) (data s : List Char)
    (h0 : s ≠ []) (h1 : sz ≤ s.length) :
    xsputn t (some ⟨sz, data⟩) s =
      ((if t.streams.all (fun d => d.writeOk) then s.length else 0),
       { t with streams := t.streams.map (fun d => d.write s) },
       some ⟨sz, data⟩) := by
  have hs : ¬ s.length = 0 := fun hl => h0 (List.length_eq_zero.mp hl)
  simp [xsputn, get_thread_buffer, hs, h1]

lemma xsputn_buffered_hi (t : TeeStreamBuf) (sz : Nat) (data s : List Char)
    (h0 : s ≠ []) (h1 : s.length < sz) (h2 : data.length + s.length ≤ sz)
    (h3 : t.flush_threshold ≤ data.length + s.length) :
    xsputn t (some ⟨sz, data⟩) s =
      (s.length, { t with streams := t.streams.map (fun d => d.write (data ++ s)) },
       some ⟨sz, []⟩) := by
  have hs : ¬ s.length = 0 := fun hl => h0 (List.length_eq_zero.mp hl)
  have h1' : ¬ sz ≤ s.length := Nat.not_le.mpr h1
  have h2' : ¬ sz < data.length + s.length := Nat.not_lt.mpr h2
  have hne : ¬ (data.length + s.length) = 0 := by omega
  simp [xsputn, get_thread_buffer, ThreadBuffer.used, flush_thread_buffer,
        hs, h1', h2', h3, hne]

lemma xsputn_buffered_lo (t : TeeStreamBuf) (sz : Nat) (data s : List Char)
    (h0 : s ≠ []) (h1 : s.length < sz) (h2 : data.length + s.length ≤ sz)
    (h3 : data.length + s.length < t.flush_threshold) :
    xsputn t (some ⟨sz, data⟩) s = (s.length, t, some ⟨sz, data ++ s⟩) := by
  have hs : ¬ s.length = 0 := fun hl => h0 (List.length_eq_zero.mp hl)
  have h1' : ¬ sz ≤ s.length := Nat.not_le.mpr h1
  have h2' : ¬ sz < data.length + s.length := Nat.not_lt.mpr h2
  have h3' : ¬ t.flush_threshold ≤ data.length + s.length := Nat.not_le.mpr h3
  simp [xsputn, get_thread_buffer, ThreadBuffer.used, hs, h1', h2', h3']

lemma xsputn_preflush_hi (t : TeeStreamBuf) (sz : Nat) (data s : List Char)
    (h0 : s ≠ []) (h1 : s.length < sz) (h2 : sz < data.length + s.length)
    (h3 : t.flush_threshold ≤ s.length) :
    xsputn t (some ⟨sz, data⟩) s =
      (s.length,
       { t with streams := t.streams.map (fun d => (d.write data).write s) },
       some ⟨sz, []⟩) := by
  have hs : ¬ s.length = 0 := fun hl => h0 (List.length_eq_zero.mp hl)
  have h1' : ¬ sz ≤ s.length := Nat.not_le.mpr h1
  have hd : data ≠ [] := by
    intro h
    subst h
    simp at h2
    omega
  have hdl : ¬ data.length = 0 := fun hl => hd (List.length_eq_zero.mp hl)
  have hne : ¬ s.length = 0 := hs
  simp [xsputn, get_thread_buffer, ThreadBuffer.used, flush_thread_buffer,
        hs, h1', h2, h3, hdl, hne, List.map_map, Function.comp]

lemma xsputn_preflush_lo (t : TeeStreamBuf) (sz : Nat) (data s : List Char)
    (h0 : s ≠ []) (h1 : s.length < sz) (h2 : sz < data.length + s.length)
    (h3 : s.length < t.flush_threshold) :
    xsputn t (some ⟨sz, data⟩) s =
      (s.length, { t with streams := t.streams.map (fun d => d.write data) },
       some ⟨sz, s⟩) := by
  have hs : ¬ s.length = 0 := fun hl => h0 (List.length_eq_zero.mp hl)
  have h1' : ¬ sz ≤ s.length := Nat.not_le.mpr h1
  have hd : data ≠ [] := by
    intro h
    subst h
    simp at h2
    omega
  have hdl : ¬ data.length = 0 := fun hl => hd (List.length_eq_zero.mp hl)
  have h3' : ¬ t.flush_threshold ≤ s.length := Nat.not_le.mpr h3
  simp [xsputn, get_thread_buffer, ThreadBuffer.used, flush_thread_buffer,
        hs, h1', h2, h3', hdl]

/-! ### Delivery lemmas -/

/-- A single `write` of any length starting from an empty thread buffer,
followed by an explicit flush, performs exactly one destination write of the
whole payload on every registered stream. -/
lemma write_flush_streams (t : TeeStreamBuf) (sz : Nat) (s : List Char) :
    (flush_thread_buffer (xsputn t (some ⟨sz, []⟩) s).2.1
        (xsputn t (some ⟨sz, []⟩) s).2.2).1.streams
      = t.streams.map (fun d => d.write s) := by
  by_cases h0 : s = []
  · subst h0
    simp [xsputn_nil, flush_empty]
  · by_cases h1 : sz ≤ s.length
    · rw [xsputn_bypass t sz [] s h0 h1]
      dsimp only
      rw [flush_empty]
    · push_neg at h1
      by_cases h3 : t.flush_threshold ≤ s.length
      · rw [xsputn_buffered_hi t sz [] s h0 h1 (by simpa using Nat.le_of_lt h1)
            (by simpa using h3)]
        dsimp only
        rw [flush_empty]
        simp
      · push_neg at h3
        rw [xsputn_buffered_lo t sz [] s h0 h1 (by simpa using Nat.le_of_lt h1)
            (by simpa using h3)]
        dsimp only
        simp only [List.nil_append]
        rw [flush_nonempty t sz s h0]

/-- A sequence of single-thread writes, all below the buffer capacity,
followed by an explicit flush, leaves every registered stream with one
contiguous in-order copy of the concatenation appended (starting from any
buffered prefix `data`). -/
lemma runWrites_flush (sz : Nat) (ws : List (List Char)) :
    ∀ (t : TeeStreamBuf) (data : List Char), (∀ w ∈ ws, w.length < sz) →
    (flush_thread_buffer (runWrites t (some ⟨sz, data⟩) ws).1
        (runWrites t (some ⟨sz, data⟩) ws).2).1.streams
      = t.streams.map (fun d => d.write (data ++ ws.flatten)) := by
  induction ws with
  | nil =>
    intro t data _
    by_cases hd : data = []
    · subst hd
      simp [runWrites, flush_empty]
    · simp [runWrites, flush_nonempty t sz data hd]
  | cons w ws ih =>
    intro t data h
    have hw : w.length < sz := h w (List.mem_cons_self _ _)
    have hws : ∀ x ∈ ws, x.length < sz := fun x hx => h x (List.mem_cons_of_mem _ hx)
    by_cases h0 : w = []
    · subst h0
      simp only [runWrites, xsputn_nil]
      rw [ih t data hws]
      simp
    · simp only [runWrites]
      by_cases h2 : sz < data.length + w.length
      · by_cases h3 : t.flush_threshold ≤ w.length
        · rw [xsputn_preflush_hi t sz data w h0 hw h2 h3]
          dsimp only
          rw [ih _ _ hws]
          simp only [List.map_map]
          refine congrArg (fun f => List.map f t.streams) ?_
          funext d
          simp [Function.comp, Ostream.write_append, List.append_assoc]
        · rw [xsputn_preflush_lo t sz data w h0 hw h2 (Nat.not_le.mp h3)]
          dsimp only
          rw [ih _ _ hws]
          simp only [List.map_map]
          refine congrArg (fun f => List.map f t.streams) ?_
          funext d
          simp [Function.comp, Ostream.write_append, List.append_assoc]
      · have h2' : data.length + w.length ≤ sz := Nat.not_lt.mp h2
        by_cases h3 : t.flush_threshold ≤ data.length + w.length
        · rw [xsputn_buffered_hi t sz data w h0 hw h2' h3]
          dsimp only
          rw [ih _ _ hws]
          simp only [List.map_map]
          refine congrArg (fun f => List.map f t.streams) ?_
          funext d
          simp [Function.comp, Ostream.write_append, List.append_assoc]
        · rw [xsputn_buffered_lo t sz data w h0 hw h2' (Nat.not_le.mp h3)]
          dsimp only
          rw [ih _ _ hws]
          simp [List.append_assoc]

/-! ### Configuration preservation and the fill invariant -/

lemma flush_buffer_size (t : TeeStreamBuf) (lb : Option ThreadBuffer) :
    (flush_thread_buffer t lb).1.buffer_size = t.buffer_size := by
  unfold flush_thread_buffer
  dsimp only
  split <;> rfl

lemma flush_flush_threshold (t : TeeStreamBuf) (lb : Option ThreadBuffer) :
    (flush_thread_buffer t lb).1.flush_threshold = t.flush_threshold := by
  unfold flush_thread_buffer
  dsimp only
  split <;> rfl

lemma xsputn_config (t : TeeStreamBuf) (lb : Option ThreadBuffer) (s : List Char) :
    (xsputn t lb s).2.1.buffer_size = t.buffer_size ∧
    (xsputn t lb s).2.1.flush_threshold = t.flush_threshold := by
  unfold xsputn flush_thread_buffer
  dsimp only
  constructor <;> (repeat' split) <;> rfl

lemma sync_lb (t : TeeStreamBuf) (lb : Option ThreadBuffer) :
    (TeeStreamBuf.sync t lb).2 = flush_thread_buffer t lb := rfl

lemma flush_inv (t : TeeStreamBuf) (lb : Option ThreadBuffer) :
    bufferInv (flush_thread_buffer t lb).2 := by
  unfold flush_thread_buffer
  dsimp only
  split
  · next h =>
    unfold ThreadBuffer.used at h
    simp only [bufferInv]
    omega
  · simp [bufferInv]

lemma xsputn_inv_some (t : TeeStreamBuf) (sz : Nat) (data s : List Char)
    (h : data.length ≤ sz) : bufferInv (xsputn t (some ⟨sz, data⟩) s).2.2 := by
  by_cases h0 : s = []
  · subst h0
    simpa [xsputn_nil, bufferInv] using h
  · by_cases h1 : sz ≤ s.length
    · rw [xsputn_bypass t sz data s h0 h1]
      simpa [bufferInv] using h
    · push_neg at h1
      by_cases h2 : sz < data.length + s.length
      · by_cases h3 : t.flush_threshold ≤ s.length
        · rw [xsputn_preflush_hi t sz data s h0 h1 h2 h3]
          simp [bufferInv]
        · rw [xsputn_preflush_lo t sz data s h0 h1 h2 (Nat.not_le.mp h3)]
          simp only [bufferInv]
          omega
      · have h2' : data.length + s.length ≤ sz := Nat.not_lt.mp h2
        by_cases h3 : t.flush_threshold ≤ data.length + s.length
        · rw [xsputn_buffered_hi t sz data s h0 h1 h2' h3]
          simp [bufferInv]
        · rw [xsputn_buffered_lo t sz data s h0 h1 h2' (Nat.not_le.mp h3)]
          simp only [bufferInv, List.length_append]
          omega

lemma xsputn_inv (t : TeeStreamBuf) (lb : Option ThreadBuffer) (s : List Char)
    (h : bufferInv lb) : bufferInv (xsputn t lb s).2.2 := by
  cases lb with
  | none =>
    by_cases h0 : s = []
    · subst h0
      simp [xsputn_nil, bufferInv]
    · rw [xsputn_none t s h0]
      exact xsputn_inv_some t t.buffer_size [] s (by simp)
  | some tb =>
    cases tb with
    | mk sz data => exact xsputn_inv_some t sz data s (by simpa [bufferInv] using h)

lemma flush_streams_syncOk (t : TeeStreamBuf) (lb : Option ThreadBuffer) :
    ((flush_thread_buffer t lb).1.streams.all fun d => d.syncOk)
      = (t.streams.all fun d => d.syncOk) := by
  unfold flush_thread_buffer
  dsimp only
  split
  · rfl
  · simp only [List.all_map]
    refine congrArg (List.all t.streams) ?_
    funext d
    simp [Function.comp]

/-! ### Claim theorems -/

/-- C1 (fan-out fidelity): for every byte sequence `S` and every set of
destinations registered before the operations begin, a single-thread write of
`S` followed by a flush leaves every registered destination's accumulated
content equal to exactly `S`, provided no destination's write fails (every
destination is healthy and starts empty).  Holds for any thread-buffer
capacity `sz`, in particular the instance's configured one. -/
theorem C1_fanout_fidelity (t : TeeStreamBuf) (sz : Nat) (s : List Char)
    (h : ∀ d ∈ t.streams, d.writeOk = true ∧ d.content = []) :
    ∀ e ∈ (flush_thread_buffer (xsputn t (some ⟨sz, []⟩) s).2.1
        (xsputn t (some ⟨sz, []⟩) s).2.2).1.streams, e.content = s := by
  intro e he
  rw [write_flush_streams] at he
  rcases List.mem_map.mp he with ⟨d, hd, rfl⟩
  rcases h d hd with ⟨hok, hc⟩
  rw [Ostream.write_content_ok d s hok, hc]
  rfl

/-- Witness for C1: two registered destinations, write of the six bytes of
the string hello plus newline, explicit flush; both contain exactly those
bytes. -/
theorem C1_fanout_fidelity_witness :
    (∀ d ∈ (add_stream (add_stream (TeeStreamBuf.init 16 8) sampleD1) sampleD2).streams,
        d.writeOk = true ∧ d.content = []) ∧
    ∀ e ∈ (flush_thread_buffer
        (xsputn (add_stream (add_stream (TeeStreamBuf.init 16 8) sampleD1) sampleD2)
          (some ⟨16, []⟩) helloL).2.1
        (xsputn (add_stream (add_stream (TeeStreamBuf.init 16 8) sampleD1) sampleD2)
          (some ⟨16, []⟩) helloL).2.2).1.streams, e.content = helloL := by
  refine ⟨by decide, ?_⟩
  exact C1_fanout_fidelity
    (add_stream (add_stream (TeeStreamBuf.init 16 8) sampleD1) sampleD2) 16 helloL
    (by decide)

/-- C2 counterexample: two independent instances (capacity 16, threshold 8,
disjoint destination sets) used from the same thread.  Two bytes are written
through instance A and stay buffered; flushing through instance B delivers
those bytes to B's destination (registered only with B), while A's destination
receives nothing — the per-thread buffer state is shared between the
instances, because `local_buffer` is a class-level `static thread_local`. -/
theorem C2_counterexample :
    (flush_thread_buffer sampleB (xsputn sampleT168 none hiL).2.2).1.streams
      = [{ sampleD2 with content := hiL }]
    ∧ (xsputn sampleT168 none hiL).2.1.streams = [sampleD1]
    ∧ sampleD1.content = [] := by
  decide

/-- C2 amended: the thread-local buffer is a class-level static shared by all
instances a thread touches.  Bytes written through instance A that remain
buffered (length below the buffer's capacity and below A's flush threshold)
leave A and its destinations unchanged, and are delivered by the next flush
through any other instance B to B's destinations. -/
theorem C2_shared_thread_buffer (A B : TeeStreamBuf) (s : List Char)
    (h0 : s ≠ []) (h1 : s.length < A.buffer_size) (h2 : s.length < A.flush_threshold) :
    (xsputn A none s).2.1 = A ∧
    (flush_thread_buffer B (xsputn A none s).2.2).1.streams
      = B.streams.map (fun d => d.write s) := by
  rw [xsputn_none A s h0]
  rw [xsputn_buffered_lo A A.buffer_size [] s h0 h1
      (by simpa using Nat.le_of_lt h1) (by simpa using h2)]
  dsimp only
  refine ⟨rfl, ?_⟩
  simp only [List.nil_append]
  rw [flush_nonempty B A.buffer_size s h0]

/-- Witness for C2's amended theorem at the concrete two-instance scenario. -/
theorem C2_shared_thread_buffer_witness :
    (xsputn sampleT168 none hiL).2.1 = sampleT168 ∧
    (flush_thread_buffer sampleB (xsputn sampleT168 none hiL).2.2).1.streams
      = sampleB.streams.map (fun d => d.write hiL) := by
  exact C2_shared_thread_buffer sampleT168 sampleB hiL (by decide) (by decide) (by decide)

/-- C3 counterexample: capacity 16, threshold 8, one healthy destination.
Write the two bytes AB (they stay buffered), then a 16-byte chunk (the
oversize bypass writes it directly, without first flushing the buffered
bytes), then flush.  The destination holds the 16-byte chunk followed by AB —
not the concatenation in the order the writes were issued. -/
theorem C3_counterexample :
    (flush_thread_buffer
        (xsputn (xsputn sampleT168 none abL).2.1 (xsputn sampleT168 none abL).2.2 big16).2.1
        (xsputn (xsputn sampleT168 none abL).2.1 (xsputn sampleT168 none abL).2.2 big16).2.2).1.streams
      = [{ sampleD1 with content := big16 ++ abL }]
    ∧ big16 ++ abL ≠ abL ++ big16 := by
  decide

/-- C3 amended: for every sequence of single-thread writes whose lengths are
all strictly below the thread buffer's capacity (so the oversize bypass path
is never taken), followed by a final flush, every destination registered for
the whole duration receives exactly the concatenation of the written byte
sequences, contiguously and in the order issued.  A write of length at or
above the capacity is instead delivered immediately, ahead of any
still-buffered earlier bytes, as the counterexample shows. -/
theorem C3_single_thread_ordering (t : TeeStreamBuf) (ws : List (List Char))
    (h : ∀ w ∈ ws, w.length < t.buffer_size) :
    (flush_thread_buffer (runWrites t (some ⟨t.buffer_size, []⟩) ws).1
        (runWrites t (some ⟨t.buffer_size, []⟩) ws).2).1.streams
      = t.streams.map (fun d => d.write ws.flatten) := by
  simpa using runWrites_flush t.buffer_size ws t [] h

/-- Witness for C3's amended theorem: writes AB then CDEFGHIJ through the
capacity-16 instance, flush; the destination holds ABCDEFGHIJ. -/
theorem C3_single_thread_ordering_witness :
    (∀ w ∈ [abL, cdL], w.length < sampleT168.buffer_size) ∧
    (flush_thread_buffer (runWrites sampleT168 (some ⟨sampleT168.buffer_size, []⟩) [abL, cdL]).1
        (runWrites sampleT168 (some ⟨sampleT168.buffer_size, []⟩) [abL, cdL]).2).1.streams
      = sampleT168.streams.map (fun d => d.write ([abL, cdL] : List (List Char)).flatten) := by
  refine ⟨by decide, ?_⟩
  exact C3_single_thread_ordering sampleT168 [abL, cdL] (by decide)

/-- C4 counterexample: capacity 16, threshold 8, one always-failing
destination; a 16-byte write takes the oversize bypass path and returns 0,
not the full byte count 16 — the destination failure is surfaced by the
return value of `write` itself. -/
theorem C4_counterexample :
    (xsputn sampleTF none big16).1 = 0 ∧ big16.length = 16 ∧ (0 : Nat) ≠ 16 := by
  decide

/-- C4 amended: a `write` of positive length below the thread-buffer capacity
returns the full byte count regardless of destination failures (failures
during any triggered flush are absorbed); a `write` of length at or above the
capacity returns the full count only when every registered destination's
write succeeds, and returns 0 when any fails.  No path raises an exception. -/
theorem C4_write_return (t : TeeStreamBuf) (sz : Nat) (data s : List Char)
    (_hsz : sz = t.buffer_size) (h0 : s ≠ []) :
    (s.length < sz → (xsputn t (some ⟨sz, data⟩) s).1 = s.length) ∧
    (sz ≤ s.length →
      (xsputn t (some ⟨sz, data⟩) s).1
        = if t.streams.all (fun d => d.writeOk) then s.length else 0) := by
  constructor
  · intro h1
    by_cases h2 : sz < data.length + s.length
    · by_cases h3 : t.flush_threshold ≤ s.length
      · rw [xsputn_preflush_hi t sz data s h0 h1 h2 h3]
      · rw [xsputn_preflush_lo t sz data s h0 h1 h2 (Nat.not_le.mp h3)]
    · have h2' := Nat.not_lt.mp h2
      by_cases h3 : t.flush_threshold ≤ data.length + s.length
      · rw [xsputn_buffered_hi t sz data s h0 h1 h2' h3]
      · rw [xsputn_buffered_lo t sz data s h0 h1 h2' (Nat.not_le.mp h3)]
  · intro h1
    rw [xsputn_bypass t sz data s h0 h1]

/-- Witness for C4's amended theorem: buffered write of two bytes returns 2
even though the only destination always fails; oversize write follows the
all-destinations aggregate. -/
theorem C4_write_return_witness :
    (xsputn sampleTFH (some ⟨16, []⟩) okL).1 = okL.length ∧
    (xsputn sampleTFH (some ⟨16, []⟩) big16).1
      = (if sampleTFH.streams.all (fun d => d.writeOk) then big16.length else 0) := by
  constructor
  · exact (C4_write_return sampleTFH 16 [] okL (by decide) (by decide)).1 (by decide)
  · exact (C4_write_return sampleTFH 16 [] big16 (by decide) (by decide)).2 (by decide)

/-- C5 counterexample: one registered destination whose writes always fail but
whose own sync succeeds.  Write two bytes (buffered), then `sync` — the flush
it triggers loses the bytes at the failing destination, yet `sync` returns 0
(success): the reported aggregate does not reflect destination write
failures, refuting "reports success iff every destination's write
succeeded". -/
theorem C5_counterexample :
    (TeeStreamBuf.sync (xsputn sampleTF none okL).2.1 (xsputn sampleTF none okL).2.2).1 = 0 ∧
    (TeeStreamBuf.sync (xsputn sampleTF none okL).2.1
        (xsputn sampleTF none okL).2.2).2.1.streams = [sampleFail] ∧
    sampleFail.writeOk = false ∧ sampleFail.content = [] := by
  decide

/-- C5 amended: `flush_thread_buffer` returns nothing and discards the
individual destination write results; the only aggregate reported by the
sync-all path is the AND of the destinations' own sync results — `sync`
returns 0 exactly when every registered destination's pubsync succeeds,
independently of any write failures during the triggered flush.  (The
oversize write path separately aggregates write results, see C4.) -/
theorem C5_sync_aggregate (t : TeeStreamBuf) (lb : Option ThreadBuffer) :
    (TeeStreamBuf.sync t lb).1
      = if t.streams.all (fun d => d.syncOk) then 0 else -1 := by
  unfold TeeStreamBuf.sync
  dsimp only
  rw [flush_streams_syncOk]

/-- C6 (threshold-triggered flush): with the thread buffer holding `data` and
a further write `s` below capacity that fits without overflow, if the
accumulated fill reaches the instance's flush threshold, the write itself
flushes: every registered destination receives one write of all buffered
bytes `data ++ s` and the thread buffer is left empty — no explicit flush
call.  In particular (witness) capacity 16, threshold 8: after AB is
buffered, writing CDEFGHIJ delivers ABCDEFGHIJ. -/
theorem C6_threshold_flush (t : TeeStreamBuf) (sz : Nat) (data s : List Char)
    (_hsz : sz = t.buffer_size) (h0 : s ≠ []) (h1 : s.length < sz)
    (h2 : data.length + s.length ≤ sz)
    (h3 : t.flush_threshold ≤ data.length + s.length) :
    xsputn t (some ⟨sz, data⟩) s
      = (s.length, { t with streams := t.streams.map (fun d => d.write (data ++ s)) },
         some ⟨sz, []⟩) :=
  xsputn_buffered_hi t sz data s h0 h1 h2 h3

/-- Witness for C6: the spec's concrete scenario — capacity 16, threshold 8;
write AB (2 bytes, no flush, destination empty), then CDEFGHIJ (8 bytes,
fill 10 ≥ 8): the auto-flush fires and the destination holds ABCDEFGHIJ. -/
theorem C6_threshold_flush_witness :
    xsputn sampleT168 none abL = (2, sampleT168, some ⟨16, abL⟩) ∧
    (xsputn sampleT168 (some ⟨16, abL⟩) cdL).2.1.streams
      = [{ sampleD1 with content := abL ++ cdL }] ∧
    (xsputn sampleT168 (some ⟨16, abL⟩) cdL).2.2 = some ⟨16, []⟩ := by
  have h := C6_threshold_flush sampleT168 16 abL cdL (by decide) (by decide) (by decide)
      (by decide) (by decide)
  refine ⟨by decide, ?_, ?_⟩
  · rw [h]
    decide
  · rw [h]

/-- C7 (oversize bypass): a write of a nonempty chunk whose length is at
least the configured capacity is handed directly to every registered
destination in full (no truncation: each healthy destination receives one
write of the whole chunk), the thread buffer is left untouched (nothing is
buffered), and no flush call is required. -/
theorem C7_oversize_bypass (t : TeeStreamBuf) (sz : Nat) (data s : List Char)
    (_hsz : sz = t.buffer_size) (h0 : s ≠ []) (h1 : sz ≤ s.length) :
    xsputn t (some ⟨sz, data⟩) s
      = ((if t.streams.all (fun d => d.writeOk) then s.length else 0),
         { t with streams := t.streams.map (fun d => d.write s) },
         some ⟨sz, data⟩) :=
  xsputn_bypass t sz data s h0 h1

/-- Witness for C7: a 16-byte chunk written to the capacity-16 instance is
delivered whole to the destination with no flush and an unchanged (empty)
thread buffer. -/
theorem C7_oversize_bypass_witness :
    (xsputn sampleT168 (some ⟨16, []⟩) big16).2.1.streams
      = [{ sampleD1 with content := big16 }] ∧
    (xsputn sampleT168 (some ⟨16, []⟩) big16).2.2 = some ⟨16, []⟩ ∧
    (xsputn sampleT168 (some ⟨16, []⟩) big16).1 = 16 := by
  have h := C7_oversize_bypass sampleT168 16 [] big16 (by decide) (by decide) (by decide)
  refine ⟨?_, ?_, ?_⟩ <;> rw [h] <;> decide

/-- C8 (misconfiguration clamp): construction with threshold ≥ capacity
silently sets the effective threshold to 75% of capacity (integer arithmetic,
`capacity * 3 / 4`); with threshold < capacity the given value is kept; the
constructor records the capacity unchanged; and both configuration values are
immutable — preserved by every operation (write, flush, sync, add, remove). -/
theorem C8_config_clamp (c th : Nat) (t : TeeStreamBuf) (lb : Option ThreadBuffer) (op : Op) :
    (c ≤ th → (TeeStreamBuf.init c th).flush_threshold = c * 3 / 4) ∧
    (th < c → (TeeStreamBuf.init c th).flush_threshold = th) ∧
    (TeeStreamBuf.init c th).buffer_size = c ∧
    (applyOp t lb op).1.buffer_size = t.buffer_size ∧
    (applyOp t lb op).1.flush_threshold = t.flush_threshold := by
  refine ⟨fun h => ?_, fun h => ?_, rfl, ?_, ?_⟩
  · simp [TeeStreamBuf.init, h]
  · simp [TeeStreamBuf.init, Nat.not_le.mpr h]
  · cases op with
    | write s => exact (xsputn_config t lb s).1
    | flushOp => exact flush_buffer_size t lb
    | syncOp => exact flush_buffer_size t lb
    | addOp d => rfl
    | removeOp i => rfl
  · cases op with
    | write s => exact (xsputn_config t lb s).2
    | flushOp => exact flush_flush_threshold t lb
    | syncOp => exact flush_flush_threshold t lb
    | addOp d => rfl
    | removeOp i => rfl

/-- Witness for C8: 16/20 is clamped to 12, 16/10 is kept at 10, and a write
through the 16/8 instance leaves both configuration values unchanged. -/
theorem C8_config_clamp_witness :
    (TeeStreamBuf.init 16 20).flush_threshold = 12 ∧
    (TeeStreamBuf.init 16 10).flush_threshold = 10 ∧
    (applyOp sampleT168 none (Op.write okL)).1.buffer_size = 16 ∧
    (applyOp sampleT168 none (Op.write okL)).1.flush_threshold = 8 := by
  refine ⟨?_, ?_, ?_, ?_⟩
  · have h := (C8_config_clamp 16 20 sampleT168 none (Op.write okL)).1 (by decide)
    rw [h]
  · have h := (C8_config_clamp 16 10 sampleT168 none (Op.write okL)).2.1 (by decide)
    rw [h]
  · have h := (C8_config_clamp 16 20 sampleT168 none (Op.write okL)).2.2.2.1
    rw [h]
    decide
  · have h := (C8_config_clamp 16 20 sampleT168 none (Op.write okL)).2.2.2.2
    rw [h]
    decide

/-- C9 (buffer-fill invariant): every operation — write of any length (the
overflow check flushes first when `used + length` would exceed the buffer's
size), flush, sync, add, remove — preserves the invariant that the thread
buffer's fill never exceeds its capacity. -/
theorem C9_buffer_fill_invariant (t : TeeStreamBuf) (lb : Option ThreadBuffer) (op : Op)
    (h : bufferInv lb) : bufferInv (applyOp t lb op).2 := by
  cases op with
  | write s => exact xsputn_inv t lb s h
  | flushOp => exact flush_inv t lb
  | syncOp => exact flush_inv t lb
  | addOp d => exact h
  | removeOp i => exact h

/-- Witness for C9: a 15-byte write into the 16-byte buffer already holding
two bytes (an overflow case: 2 + 15 > 16) keeps the invariant. -/
theorem C9_buffer_fill_invariant_witness :
    bufferInv (some (⟨16, abL⟩ : ThreadBuffer)) ∧
    bufferInv (applyOp sampleT168 (some ⟨16, abL⟩) (Op.write (big16.take 15))).2 := by
  refine ⟨by decide, ?_⟩
  exact C9_buffer_fill_invariant sampleT168 (some ⟨16, abL⟩) (Op.write (big16.take 15))
    (by decide)

/-- C10 (failure isolation): for any registry (which may contain
always-failing destinations), a write of `S` followed by a flush still
appends exactly `S` to every healthy registered destination; the failing
destinations never prevent that delivery, and every path is a total function
(no exception reaches the caller). -/
theorem C10_failure_isolation (t : TeeStreamBuf) (sz : Nat) (s : List Char)
    (d : Ostream) (hd : d ∈ t.streams) (hok : d.writeOk = true) :
    { d with content := d.content ++ s } ∈
      (flush_thread_buffer (xsputn t (some ⟨sz, []⟩) s).2.1
          (xsputn t (some ⟨sz, []⟩) s).2.2).1.streams := by
  rw [write_flush_streams]
  rw [← Ostream.write_ok_eq d s hok]
  exact List.mem_map_of_mem _ hd

/-- Witness for C10: spec scenario 4 — one always-failing and one healthy
destination, write of the two bytes ok, flush: the healthy destination holds
exactly those bytes. -/
theorem C10_failure_isolation_witness :
    sampleD1 ∈ sampleTFH.streams ∧ sampleD1.writeOk = true ∧
    { sampleD1 with content := sampleD1.content ++ okL } ∈
      (flush_thread_buffer (xsputn sampleTFH (some ⟨16, []⟩) okL).2.1
          (xsputn sampleTFH (some ⟨16, []⟩) okL).2.2).1.streams := by
  refine ⟨by decide, by decide, ?_⟩
  exact C10_failure_isolation sampleTFH 16 okL sampleD1 (by decide) (by decide)
